import Mathlib

/-!
Verification of the tour.js widget library (classes `Tour` and `Spotlight`,
v1.1.0 sources `src/classes/Tour.js` and `src/classes/Spotlight.js`).

The JavaScript is shallowly embedded as pure Lean functions:
* pixel coordinates (JS numbers) become `ℚ`;
* a DOM rectangle (`getBoundingClientRect`) becomes the `Rect` structure;
* the mutable tour object becomes the `TourSM` structure, and each method
  becomes a function `TourSM → TourSM × JsOutcome` where the outcome records
  whether the call returned normally, returned after a `console.warn`, or
  threw a `TypeError` (e.g. indexing `steps` out of range, or using a `null`
  popup or spotlight); the returned structure carries all mutations performed
  before a throw, as JS exceptions do not roll state back;
* `sessionStorage` becomes a partial map from keys to the structured record
  that `save()` serializes (JSON encoding itself is treated as the identity);
* step text is a `List Char` (the `data` of a JS string), and the JS
  `String.prototype.replace` with a string pattern — which rewrites only the
  first match — is embedded as `jsReplace`.

DOM-only effects (element lookup, scrolling, resize observers, inline style
writes) are not part of the embedded state; the embedding assumes each step's
target element resolves, which is the regime all quantified claims speak
about.  The stylesheet `tour.css` sizes the four `.tour-overlay` spotlight
panels but is not among the provided sources, so the initial panel geometry
is modelled from the spec (full-viewport surfaces); this is noted again at
`createPanels`.
-/

/-- A `DOMRect`-style rectangle: `left`/`top` with non-negative-by-convention
`width`/`height`; `right` and `bottom` are derived, as in the DOM. -/
structure Rect where
  left : ℚ
  top : ℚ
  width : ℚ
  height : ℚ
deriving DecidableEq

/-- Derived field `right = left + width`, as on a `DOMRect`. -/
def Rect.right (r : Rect) : ℚ := r.left + r.width

/-- Derived field `bottom = top + height`, as on a `DOMRect`. -/
def Rect.bottom (r : Rect) : ℚ := r.top + r.height

/-- Membership of the point `(x, y)` in a rectangle, half-open on the far
edges so that adjacent rectangles tile without double counting. -/
def covers (p : Rect) (x y : ℚ) : Prop :=
  p.left ≤ x ∧ x < p.left + p.width ∧ p.top ≤ y ∧ y < p.top + p.height

/-- The visible viewport: `0 ≤ x < vw`, `0 ≤ y < vh`. -/
def inViewport (vw vh x y : ℚ) : Prop :=
  0 ≤ x ∧ x < vw ∧ 0 ≤ y ∧ y < vh

/-- Membership in the target rectangle expanded by the padding `pad` on each
side, half-open like `covers`. -/
def inPadded (r : Rect) (pad x y : ℚ) : Prop :=
  r.left - pad ≤ x ∧ x < r.right + pad ∧ r.top - pad ≤ y ∧ y < r.bottom + pad

/-- State of the `Spotlight` class: the `padding` field and the `spotlight`
array of overlay panels (their current geometry). -/
structure SpotState where
  padding : ℚ
  panels : List Rect
deriving DecidableEq

/-- Modelled from the spec: the stylesheet `tour.css`, which sizes the
`.tour-overlay` panels appended by `Spotlight.create`, is not among the
provided sources.  Per the spec the top/bottom panels span the full viewport
width and the panels together mask the whole viewport, so each freshly
created panel is modelled as a full-viewport surface at the origin. -/
def createPanels (vw vh : ℚ) : List Rect :=
  List.replicate 4 ⟨0, 0, vw, vh⟩

/-- The `Spotlight` constructor: stores the padding and calls `create()`,
which appends the four overlay panels. -/
def spotlightNew (padding vw vh : ℚ) : SpotState :=
  { padding := padding, panels := createPanels vw vh }

/-- `Spotlight.move(element)`: repositions the four panels around the target
rectangle.  Translated line by line from `Spotlight.js` lines 41–60: panel 0
(top) gets `top = rect.top - padding - ownHeight`; panel 1 (right) gets
`left = rect.right + padding`, `top = rect.top - padding`; panel 2 (bottom)
gets `top = rect.bottom + padding`; panel 3 (left) gets
`left = rect.left - padding - ownWidth`, `top = rect.top - padding`; finally
panels 3 and 1 get `height = rect.height + padding * 2`.  If the panel array
does not hold four panels the JS dereferences `undefined` and throws, which
the embedding renders as `none`. -/
def spotMove (s : SpotState) (rect : Rect) : Option SpotState :=
  match s.panels with
  | [p0, p1, p2, p3] =>
    let p0a := { p0 with top := rect.top - s.padding - p0.height }
    let p1a := { p1 with left := rect.right + s.padding, top := rect.top - s.padding }
    let p2a := { p2 with top := rect.bottom + s.padding }
    let p3a := { p3 with left := rect.left - s.padding - p3.width, top := rect.top - s.padding }
    let p3b := { p3a with height := rect.height + s.padding * 2 }
    let p1b := { p1a with height := rect.height + s.padding * 2 }
    some { s with panels := [p0a, p1b, p2a, p3b] }
  | _ => none

/-- A call to `Spotlight.move` together with its console output: the method
body contains no `console` call whatsoever, so the log trace of any call is
empty; `none` in the first component is a thrown `TypeError`. -/
def spotMoveRun (s : SpotState) (rect : Rect) : Option SpotState × List String :=
  (spotMove s rect, [])

/-- `Spotlight.blackout()`: panel 0's top is set to `0`, panel 1 is pushed
right by its own width, panel 2 down by its own height, and panel 3 left by
its own width (`Spotlight.js` lines 65–70). -/
def spotBlackout (s : SpotState) : Option SpotState :=
  match s.panels with
  | [p0, p1, p2, p3] =>
    some { s with panels :=
      [{ p0 with top := 0 },
       { p1 with left := p1.width },
       { p2 with top := p2.height },
       { p3 with left := -p3.width }] }
  | _ => none

/-- `Tour.getPopupPos` (`Tour.js` lines 218–277) as a function of the document
width, the target rectangle, the popup dimensions and `window.innerHeight`.
The returned flag records whether the fallback `scrollIntoView(true)` call
was made.  The structure mirrors the source: branch on the wide-element test,
then top/bottom or left/right with the two fallback tests, the left `x`
clamped at `0` before the final `Math.abs` of both coordinates. -/
def getPopupPos (docW : ℚ) (rect : Rect) (popW popH : ℚ) (innerH : ℚ) :
    (ℚ × ℚ) × Bool :=
  let offset : ℚ := 10
  let res : (ℚ × ℚ) × Bool :=
    if docW - rect.width ≤ docW / 2 then
      if rect.bottom < innerH / 2 then
        ((rect.left + rect.width / 2 - popW / 2, rect.bottom + offset), false)
      else
        ((rect.left + rect.width / 2 - popW / 2, rect.top - offset - popH), false)
    else
      if rect.right < docW / 2 then
        if docW - popW < rect.right then
          ((rect.left + rect.width / 2 - popW / 2, rect.bottom + offset), true)
        else
          ((rect.right + offset, rect.top + rect.height / 2 - popH / 2), false)
      else
        if popW > rect.left then
          ((rect.left + rect.width / 2 - popW / 2, rect.bottom + offset), true)
        else
          ((if rect.left - offset - popW < 0 then 0 else rect.left - offset - popW,
            rect.top + rect.height / 2 - popH / 2), false)
  ((|res.1.1|, |res.1.2|), res.2)

/-- `Tour.getCenterPos` (`Tour.js` lines 283–291): the popup is centered in
the viewport. -/
def getCenterPos (innerW innerH popW popH : ℚ) : ℚ × ℚ :=
  (innerW / 2 - popW / 2, innerH / 2 - popH / 2)

/-- JS `String.prototype.replace` with a string pattern, on character lists:
only the first occurrence of `pat` is rewritten to `rep`; with no occurrence
the text is returned unchanged. -/
def jsReplace (pat rep : List Char) : List Char → List Char
  | [] => if pat.isPrefixOf ([] : List Char) then rep else []
  | c :: rest =>
    if pat.isPrefixOf (c :: rest) then rep ++ (c :: rest).drop pat.length
    else c :: jsReplace pat rep rest

/-- Whether `pat` occurs as a contiguous subsequence of `s` (used to state
when a placeholder token is absent from a text). -/
def containsSub (pat : List Char) : List Char → Bool
  | [] => pat.isPrefixOf ([] : List Char)
  | c :: rest => pat.isPrefixOf (c :: rest) || containsSub pat rest

/-- The text-formatting loop of `Tour.updatePopup` (`Tour.js` lines 322–326):
for each entry of `textVariables` in order, `text = text.replace
("PLACEHOLDER-" + variable, value)`. -/
def formatText (vars : List (String × String)) (text : List Char) : List Char :=
  vars.foldl (fun t kv => jsReplace ("PLACEHOLDER-".data ++ kv.1.data) kv.2.data t) text

/-- One `step` of a tour: an optional target-element id, the display text and
an optional image URL. -/
structure Step where
  id : Option String := none
  text : String := ""
  img : Option String := none
deriving DecidableEq

/-- The `options` record of a `Tour`, always fully populated (the four fields
assigned by `setOptions`). -/
structure TourOptions where
  disableScroll : Bool
  spotlight : Bool
  language : String
  scrollMargin : ℚ
deriving DecidableEq

/-- An argument object passed to `setOptions`: each property may be present
or absent (absent JS properties and `undefined` both trigger the
destructuring defaults). -/
structure OptionsArg where
  disableScroll : Option Bool := none
  spotlight : Option Bool := none
  language : Option String := none
  scrollMargin : Option ℚ := none
deriving DecidableEq

/-- The body of `Tour.setOptions` (`Tour.js` lines 82–87): destructure the
argument with defaults `disableScroll = true`, `spotlight = true`,
`language = "en"`, `scrollMargin = 50`, then assign all four fields of
`this.options`. -/
def applyOptions (arg : OptionsArg) : TourOptions :=
  { disableScroll := arg.disableScroll.getD true
    spotlight := arg.spotlight.getD true
    language := arg.language.getD "en"
    scrollMargin := arg.scrollMargin.getD 50 }

/-- The state-machine projection of a `Tour` object: its fields except the
DOM handles, with the popup element and the spotlight object tracked as
existence flags (`null` versus a created object). -/
structure TourSM where
  varName : String
  steps : List Step
  step : Int
  currentState : Nat
  options : TourOptions
  textVariables : List (String × String)
  popupExists : Bool
  spotlightObj : Bool
deriving DecidableEq

/-- How a method call returns: normally, after the `console.warn` branch, or
by throwing a `TypeError` (out-of-range step index, `null` popup element, or
`null` spotlight). -/
inductive JsOutcome
  | ok
  | warned
  | threw
deriving DecidableEq

/-- The `Tour` constructor (`Tour.js` lines 17–45): stores `varName`,
`steps`, `step`, sets `currentState = 0`, leaves popup and spotlight `null`,
empties `textVariables`, and calls `setOptions()` with no argument. -/
def TourSM.new (varName : String) (steps : List Step) (step : Int := 0) : TourSM :=
  { varName := varName, steps := steps, step := step, currentState := 0,
    options := applyOptions {}, textVariables := [],
    popupExists := false, spotlightObj := false }

/-- `Tour.setOptions` as a method on the tour state. -/
def TourSM.setOptions (t : TourSM) (arg : OptionsArg) : TourSM :=
  { t with options := applyOptions arg }

/-- `Tour.setTextVariables` (`Tour.js` lines 70–72). -/
def TourSM.setTextVariables (t : TourSM) (vars : List (String × String)) : TourSM :=
  { t with textVariables := vars }

/-- `Tour.makeStep` (`Tour.js` lines 156–190) restricted to the embedded
state: the call throws when `steps[step]` is `undefined` (index out of
range), when the popup element is `null` (`updatePopup` dereferences it), or
when the spotlight option is on but `this.spotlight` is `null`; otherwise it
only mutates DOM state outside the embedding and returns normally. -/
def TourSM.makeStep (t : TourSM) : TourSM × JsOutcome :=
  if 0 ≤ t.step ∧ t.step < (t.steps.length : Int) then
    if t.popupExists then
      if t.options.spotlight && !t.spotlightObj then (t, .threw) else (t, .ok)
    else (t, .threw)
  else (t, .threw)

/-- `Tour.start` (`Tour.js` lines 108–123): when `currentState != 1` it sets
the state to `1`, creates the popup, creates a `Spotlight` when the option is
enabled, and runs `makeStep`; otherwise it warns that the tour has already
started and does nothing. -/
def TourSM.start (t : TourSM) : TourSM × JsOutcome :=
  if t.currentState ≠ 1 then
    ({ t with
        currentState := 1
        popupExists := true
        spotlightObj := if t.options.spotlight then true else t.spotlightObj }).makeStep
  else (t, .warned)

/-- `Tour.endTour` (`Tour.js` lines 195–204): sets `currentState = 2`, then
removes the popup (throwing when it is `null`), then kills the spotlight when
the option is enabled (throwing when `this.spotlight` is `null`; `kill`
removes the panels but leaves the object). -/
def TourSM.endTour (t : TourSM) : TourSM × JsOutcome :=
  if t.popupExists then
    if t.options.spotlight && !t.spotlightObj then
      ({ t with currentState := 2, popupExists := false }, .threw)
    else ({ t with currentState := 2, popupExists := false }, .ok)
  else ({ t with currentState := 2 }, .threw)

/-- `Tour.next` (`Tour.js` lines 140–151): increments the step index, then
either re-renders via `makeStep` (index still below `steps.length`) or calls
`endTour`. -/
def TourSM.next (t : TourSM) : TourSM × JsOutcome :=
  if t.step + 1 < (t.steps.length : Int) then
    ({ t with step := t.step + 1 }).makeStep
  else ({ t with step := t.step + 1 }).endTour

/-- The state after `k` successive `next()` calls (each call's outcome is
recovered by applying `TourSM.next` to the predecessor state). -/
def TourSM.runNext (t : TourSM) : Nat → TourSM
  | 0 => t
  | k + 1 => ((t.runNext k).next).1

/-- A tour as the README sets one up: `new Tour("tour", steps)` followed by
`tour.setOptions(opts)`. -/
def mkTour (steps : List Step) (opts : OptionsArg) : TourSM :=
  (TourSM.new "tour" steps).setOptions opts

/-- The record that `Tour.save` (`Tour.js` lines 92–103) serializes to
session storage: state and step index as strings (via `toString()`), the
step list, options and text variables structurally.  The `styles` property
of the saved object is `undefined` and is dropped by `JSON.stringify`. -/
structure SavedTour where
  currentState : String
  steps : List Step
  step : String
  options : TourOptions
  textVariables : List (String × String)
deriving DecidableEq

/-- Session storage as a partial map from string keys to saved records (JSON
encoding/decoding of the record is treated as the identity). -/
def Storage := String → Option SavedTour

/-- Storage with no entry saved under any key. -/
def emptyStorage : Storage := fun _ => none

/-- `Tour.save` (`Tour.js` lines 92–103): writes the serialized record under
the key `"Tour.js"`. -/
def TourSM.save (t : TourSM) (st : Storage) : Storage :=
  fun key =>
    if key = "Tour.js" then
      some { currentState := toString t.currentState, steps := t.steps,
             step := toString t.step, options := t.options,
             textVariables := t.textVariables }
    else st key

/-- JS `parseInt` on the strings produced by `toString()` of an integer. -/
def parseIntM (s : String) : Int := (s.toInt?).getD 0

/-- Static `Tour.getSavedTour` (`Tour.js` lines 52–63): reads the key
`'tour'` from session storage, `JSON.parse`s it, and builds a new `Tour`
from `tour.steps` and `parseInt(tour.step)`, then sets `newTour.spotlight =
tour.spotlight` (absent from the saved record, hence `undefined`), the text
variables and the options.  When the key is absent, `JSON.parse(null)`
yields `null` and `tour.steps` throws, rendered as `none`. -/
def getSavedTour (varName : String) (st : Storage) : Option TourSM :=
  match st "tour" with
  | none => none
  | some saved =>
    some (((TourSM.new varName saved.steps
        (parseIntM saved.step)).setTextVariables saved.textVariables).setOptions
      { disableScroll := some saved.options.disableScroll,
        spotlight := some saved.options.spotlight,
        language := some saved.options.language,
        scrollMargin := some saved.options.scrollMargin })

/-- Whichever branch `makeStep` takes, the embedded state is unchanged (the
method only mutates DOM state outside the embedding). -/
theorem TourSM.makeStep_fst (t : TourSM) : (t.makeStep).1 = t := by
  unfold TourSM.makeStep
  split_ifs <;> rfl

/-- C7: in centered mode (a step with no target element), for every popup
size and viewport size, the computed popup coordinates satisfy
`x = (viewportWidth - popupWidth)/2` and `y = (viewportHeight -
popupHeight)/2`, hence `x + popupWidth/2 = viewportWidth/2` and
`y + popupHeight/2 = viewportHeight/2`. -/
theorem centerPos_centers (innerW innerH popW popH : ℚ) :
    getCenterPos innerW innerH popW popH = ((innerW - popW) / 2, (innerH - popH) / 2) ∧
    (getCenterPos innerW innerH popW popH).1 + popW / 2 = innerW / 2 ∧
    (getCenterPos innerW innerH popW popH).2 + popH / 2 = innerH / 2 := by
  refine ⟨?_, ?_, ?_⟩
  · simp only [getCenterPos, Prod.mk.injEq]
    constructor <;> ring
  · simp only [getCenterPos]
    ring
  · simp only [getCenterPos]
    ring

/-- C10: every option field absent from the `setOptions` argument is reset to
its default (`disableScroll = true`, `spotlight = true`, `language = "en"`,
`scrollMargin = 50`) regardless of the previously stored value; in
particular `setOptions({language: "fr"})` sets `disableScroll` back to
`true` on any tour. -/
theorem setOptions_resets_absent_fields (t : TourSM) (arg : OptionsArg) :
    (arg.disableScroll = none → (t.setOptions arg).options.disableScroll = true) ∧
    (arg.spotlight = none → (t.setOptions arg).options.spotlight = true) ∧
    (arg.language = none → (t.setOptions arg).options.language = "en") ∧
    (arg.scrollMargin = none → (t.setOptions arg).options.scrollMargin = 50) ∧
    (t.setOptions { language := some "fr" }).options.disableScroll = true := by
  refine ⟨?_, ?_, ?_, ?_, rfl⟩ <;> intro h <;> simp [TourSM.setOptions, applyOptions, h]

/-- A tour whose `disableScroll` option was previously switched off. -/
def prevFalseTour : TourSM :=
  (TourSM.new "t" []).setOptions { disableScroll := some false }

/-- Witness for C10 at a concrete tour: `disableScroll` was `false`, the
argument omits it, and after `setOptions({language: "fr"})` it is `true`. -/
theorem setOptions_resets_absent_fields_witness :
    prevFalseTour.options.disableScroll = false ∧
    ({ language := some "fr" } : OptionsArg).disableScroll = none ∧
    (prevFalseTour.setOptions { language := some "fr" }).options.disableScroll = true :=
  ⟨rfl, rfl, (setOptions_resets_absent_fields prevFalseTour { language := some "fr" }).1 rfl⟩

/-- C3: the persistence round trip is broken by a key mismatch: `save()`
writes under the key `"Tour.js"` while `getSavedTour` reads the key
`'tour'`, so loading after saving returns exactly what it would have
returned without the save — and on empty storage it fails outright
(`JSON.parse(null)` is `null`, and `tour.steps` throws). -/
theorem save_load_key_mismatch :
    (∀ (t : TourSM) (st : Storage) (v : String),
        getSavedTour v (t.save st) = getSavedTour v st) ∧
    (∀ (t : TourSM) (v : String), getSavedTour v (t.save emptyStorage) = none) := by
  constructor
  · intro t st v
    have hk : (t.save st) "tour" = st "tour" := by
      simp only [TourSM.save, if_neg (by decide : ¬("tour" = "Tour.js"))]
    simp [getSavedTour, hk]
  · intro t v
    have hk : (t.save emptyStorage) "tour" = none := by
      simp only [TourSM.save, if_neg (by decide : ¬("tour" = "Tour.js"))]
      rfl
    simp [getSavedTour, hk]

/-- C8, counterexample to the claimed failure policy: with an empty panel
list, `Spotlight.move` throws (`undefined` panel dereference) and logs
nothing, rather than reporting an error and returning. -/
theorem move_empty_counterexample :
    spotMoveRun { padding := 10, panels := [] } ⟨40, 40, 20, 20⟩ = (none, []) := rfl

/-- C8, amended: for every padding and target rectangle, calling `move` on a
`Spotlight` whose panel list is empty throws a `TypeError` (rendered as
`none`) before mutating anything, and emits no log: the guard with
`console.error` exists only in the one-class example implementation
(`moveSpotlight` in `tour-one-class.js`), not in `Spotlight.move`. -/
theorem move_empty_panels_throws (pad : ℚ) (rect : Rect) :
    spotMoveRun { padding := pad, panels := [] } rect = (none, []) := rfl

/-- When the pattern heads the text, `jsReplace` rewrites it there. -/
theorem jsReplace_append (pat rep b : List Char) :
    jsReplace pat rep (pat ++ b) = rep ++ b := by
  match pat with
  | [] =>
    cases b with
    | nil => simp [jsReplace]
    | cons c r => simp [jsReplace, List.isPrefixOf]
  | p :: pt =>
    have hpre : (p :: pt).isPrefixOf ((p :: pt) ++ b) = true := by
      rw [List.isPrefixOf_iff_prefix]
      exact List.prefix_append _ _
    simp only [List.cons_append, jsReplace, List.length_cons]
    rw [if_pos (by simp_all)]
    simp [List.drop_left]

/-- When the pattern does not match at the head, `jsReplace` keeps the head
character and continues in the tail. -/
theorem jsReplace_no_match_head (pat rep : List Char) (c : Char) (s : List Char)
    (h : pat.isPrefixOf (c :: s) = false) :
    jsReplace pat rep (c :: s) = c :: jsReplace pat rep s := by
  simp [jsReplace, h]

/-- In a text `a ++ pat ++ b` where the pattern matches at no position inside
`a`, `jsReplace` rewrites exactly the displayed occurrence. -/
theorem jsReplace_first (pat rep : List Char) :
    ∀ a b : List Char,
      (∀ i, i < a.length → pat.isPrefixOf ((a ++ pat ++ b).drop i) = false) →
      jsReplace pat rep (a ++ pat ++ b) = a ++ rep ++ b := by
  intro a
  induction a with
  | nil =>
    intro b _
    simpa using jsReplace_append pat rep b
  | cons c a2 ih =>
    intro b h
    have h0 : pat.isPrefixOf (c :: (a2 ++ pat ++ b)) = false := by
      simpa using h 0 (Nat.succ_pos _)
    have hrest : ∀ i, i < a2.length → pat.isPrefixOf ((a2 ++ pat ++ b).drop i) = false := by
      intro i hi
      simpa using h (i + 1) (Nat.succ_lt_succ hi)
    show jsReplace pat rep (c :: (a2 ++ pat ++ b)) = c :: (a2 ++ rep ++ b)
    rw [jsReplace_no_match_head pat rep c _ h0, ih b hrest]

/-- A text with no occurrence of the pattern is returned unchanged. -/
theorem jsReplace_of_not_contains (pat rep : List Char) :
    ∀ s, containsSub pat s = false → jsReplace pat rep s = s := by
  intro s
  induction s with
  | nil =>
    intro h
    simp only [containsSub] at h
    simp [jsReplace, h]
  | cons c r ih =>
    intro h
    simp only [containsSub, Bool.or_eq_false_iff] at h
    rw [jsReplace_no_match_head pat rep c r h.1, ih h.2]

/-- A text containing none of the map's placeholder tokens is rendered
verbatim by the formatting loop. -/
theorem formatText_unchanged :
    ∀ (vars : List (String × String)) (text : List Char),
      (∀ kv ∈ vars, containsSub ("PLACEHOLDER-".data ++ kv.1.data) text = false) →
      formatText vars text = text := by
  intro vars
  induction vars with
  | nil => intro text _; rfl
  | cons kv rest ih =>
    intro text h
    have hstep : formatText (kv :: rest) text
        = formatText rest (jsReplace ("PLACEHOLDER-".data ++ kv.1.data) kv.2.data text) := rfl
    rw [hstep, jsReplace_of_not_contains _ _ _ (h kv (by simp))]
    exact ih text fun kv2 hkv2 => h kv2 (List.mem_cons_of_mem _ hkv2)

/-- C2, amended: rendering a step substitutes only the FIRST occurrence of
each placeholder: for a text `a ++ "PLACEHOLDER-X" ++ b` whose displayed
token is the first occurrence, the variable map `{X → v}` yields
`a ++ v ++ b` (so any further occurrences inside `b` stay verbatim), and a
text containing none of the map's placeholder tokens is left unchanged. -/
theorem formatText_first_occurrence :
    (∀ (a b : List Char) (X v : String),
        (∀ i, i < a.length →
          ("PLACEHOLDER-".data ++ X.data).isPrefixOf
            ((a ++ ("PLACEHOLDER-".data ++ X.data) ++ b).drop i) = false) →
        formatText [(X, v)] (a ++ ("PLACEHOLDER-".data ++ X.data) ++ b)
          = a ++ v.data ++ b) ∧
    (∀ (vars : List (String × String)) (text : List Char),
        (∀ kv ∈ vars, containsSub ("PLACEHOLDER-".data ++ kv.1.data) text = false) →
        formatText vars text = text) := by
  constructor
  · intro a b X v h
    have hone : formatText [(X, v)] (a ++ ("PLACEHOLDER-".data ++ X.data) ++ b)
        = jsReplace ("PLACEHOLDER-".data ++ X.data) v.data
            (a ++ ("PLACEHOLDER-".data ++ X.data) ++ b) := rfl
    rw [hone]
    exact jsReplace_first _ _ a b h
  · exact formatText_unchanged

/-- C2, counterexample to "every occurrence is replaced": with the map
`{X → "v"}`, the text `"PLACEHOLDER-X PLACEHOLDER-X"` renders as
`"v PLACEHOLDER-X"` — the second occurrence survives — not as `"v v"`. -/
theorem formatText_counterexample :
    formatText [("X", "v")] ("PLACEHOLDER-X PLACEHOLDER-X".data)
      = "v PLACEHOLDER-X".data ∧
    formatText [("X", "v")] ("PLACEHOLDER-X PLACEHOLDER-X".data)
      ≠ "v v".data := by
  refine ⟨by decide, by decide⟩

/-- Witness for the amended C2 at a concrete text: `"Hi PLACEHOLDER-n
 PLACEHOLDER-n"` with `{n → "Sam"}` renders `"Hi Sam PLACEHOLDER-n"`. -/
theorem formatText_first_occurrence_witness :
    (∀ i, i < ("Hi ".data).length →
      ("PLACEHOLDER-".data ++ "n".data).isPrefixOf
        (("Hi ".data ++ ("PLACEHOLDER-".data ++ "n".data) ++ " PLACEHOLDER-n".data).drop i)
        = false) ∧
    formatText [("n", "Sam")]
        ("Hi ".data ++ ("PLACEHOLDER-".data ++ "n".data) ++ " PLACEHOLDER-n".data)
      = "Hi ".data ++ "Sam".data ++ " PLACEHOLDER-n".data :=
  ⟨by decide,
   formatText_first_occurrence.1 "Hi ".data " PLACEHOLDER-n".data "n" "Sam" (by decide)⟩

/-- A concrete one-step tour driven to the Finished state: `new Tour`,
`start()`, then one `next()` past the last step. -/
def tourFinishedEx : TourSM := (((TourSM.new "t" [{}]).start).1.next).1

/-- A concrete two-step tour in the Started state. -/
def tourStartedEx : TourSM := ((TourSM.new "t" [{}, {}]).start).1

/-- C4, counterexample: on a Finished tour, `start()` is NOT a no-op — the
guard `currentState != 1` passes, so the state is mutated back to Started
(and the popup recreated) before the out-of-range render throws. -/
theorem start_from_finished_counterexample :
    tourFinishedEx.currentState = 2 ∧
    (tourFinishedEx.start).1.currentState = 1 ∧
    (tourFinishedEx.start).1.popupExists = true ∧
    (tourFinishedEx.start).2 ≠ JsOutcome.warned := by
  refine ⟨rfl, rfl, rfl, by decide⟩

/-- C4, amended: `start()` is a warned no-op exactly when the state is
Started (`currentState = 1`); from any other state — Configuring or Finished
alike — the guard passes and the start sequence runs: the state becomes
Started, the popup is (re)created, and steps and index are kept. -/
theorem start_noop_only_when_started (t : TourSM) :
    (t.currentState = 1 → t.start = (t, JsOutcome.warned)) ∧
    (t.currentState ≠ 1 →
      (t.start).1.currentState = 1 ∧
      (t.start).1.popupExists = true ∧
      (t.start).1.step = t.step ∧
      (t.start).1.steps = t.steps) := by
  constructor
  · intro h
    simp [TourSM.start, h]
  · intro h
    simp [TourSM.start, h, TourSM.makeStep_fst]

/-- Witness for the amended C4: the warned no-op on a concrete Started tour,
and the re-entered transition on a concrete Finished tour. -/
theorem start_noop_only_when_started_witness :
    (tourStartedEx.currentState = 1 ∧
      tourStartedEx.start = (tourStartedEx, JsOutcome.warned)) ∧
    (tourFinishedEx.currentState ≠ 1 ∧
      (tourFinishedEx.start).1.currentState = 1 ∧
      (tourFinishedEx.start).1.popupExists = true ∧
      (tourFinishedEx.start).1.step = tourFinishedEx.step ∧
      (tourFinishedEx.start).1.steps = tourFinishedEx.steps) :=
  ⟨⟨rfl, (start_noop_only_when_started tourStartedEx).1 rfl⟩,
   ⟨by decide, (start_noop_only_when_started tourFinishedEx).2 (by decide)⟩⟩

/-- When every precondition of a render holds (index in range, popup
created, spotlight consistent with its option), `makeStep` returns normally
and leaves the embedded state unchanged. -/
theorem TourSM.makeStep_ok (t : TourSM) (h1 : 0 ≤ t.step)
    (h2 : t.step < (t.steps.length : Int)) (h3 : t.popupExists = true)
    (h4 : (t.options.spotlight && !t.spotlightObj) = false) :
    t.makeStep = (t, JsOutcome.ok) := by
  unfold TourSM.makeStep
  rw [if_pos ⟨h1, h2⟩, if_pos h3, if_neg (by simp [h4])]

/-- With the guard `currentState != 1` passing, `start()` mutates the state
and renders. -/
theorem TourSM.start_guard_passes (t : TourSM) (h : t.currentState ≠ 1) :
    t.start = ({ t with
      currentState := 1
      popupExists := true
      spotlightObj := if t.options.spotlight then true else t.spotlightObj }).makeStep := by
  unfold TourSM.start
  rw [if_pos h]

/-- The state of a freshly configured and started tour whose index has been
moved to `i`: Started, popup created, spotlight object present exactly when
the option asks for one. -/
def stepTour (steps : List Step) (opts : OptionsArg) (i : Int) : TourSM :=
  { varName := "tour", steps := steps, step := i, currentState := 1,
    options := applyOptions opts, textVariables := [], popupExists := true,
    spotlightObj := if (applyOptions opts).spotlight then true else false }

/-- The same tour state after `endTour`: Finished and the popup removed. -/
def finishedTour (steps : List Step) (opts : OptionsArg) (i : Int) : TourSM :=
  { varName := "tour", steps := steps, step := i, currentState := 2,
    options := applyOptions opts, textVariables := [], popupExists := false,
    spotlightObj := if (applyOptions opts).spotlight then true else false }

/-- After `start()` the spotlight object exists whenever the option demands
one, so the render precondition on the spotlight always holds. -/
theorem stepTour_spot (steps : List Step) (opts : OptionsArg) (i : Int) :
    ((stepTour steps opts i).options.spotlight
      && !(stepTour steps opts i).spotlightObj) = false := by
  cases hb : (applyOptions opts).spotlight <;> simp [stepTour, hb]

/-- On a non-empty step list, `start()` from the fresh tour returns normally
in the `stepTour … 0` state (step index `0` rendered). -/
theorem start_mkTour (steps : List Step) (opts : OptionsArg) (h : steps ≠ []) :
    (mkTour steps opts).start = (stepTour steps opts 0, JsOutcome.ok) := by
  have hN : (0 : Int) < (steps.length : Int) := by
    exact_mod_cast List.length_pos.mpr h
  have hguard : (mkTour steps opts).currentState ≠ 1 := by
    simp [mkTour, TourSM.new, TourSM.setOptions]
  rw [TourSM.start_guard_passes _ hguard]
  have e2 : ({ mkTour steps opts with
      currentState := 1
      popupExists := true
      spotlightObj := if (mkTour steps opts).options.spotlight then true
                      else (mkTour steps opts).spotlightObj }) = stepTour steps opts 0 := rfl
  rw [e2]
  exact TourSM.makeStep_ok _ (by simp [stepTour])
    (by simpa [stepTour] using hN) rfl (stepTour_spot steps opts 0)

/-- An in-range `next()` call on the started tour only advances the index. -/
theorem stepTour_next_ok (steps : List Step) (opts : OptionsArg) (k : ℕ)
    (hk : k + 1 < steps.length) :
    (stepTour steps opts (k : Int)).next
      = (stepTour steps opts ((k + 1 : ℕ) : Int), JsOutcome.ok) := by
  unfold TourSM.next
  rw [if_pos (by show (k : Int) + 1 < (steps.length : Int); exact_mod_cast hk)]
  have e1 : ({ stepTour steps opts (k : Int) with step := (stepTour steps opts (k : Int)).step + 1 })
      = stepTour steps opts ((k + 1 : ℕ) : Int) := by
    show stepTour steps opts ((k : Int) + 1) = _
    norm_num
  rw [e1]
  exact TourSM.makeStep_ok _ (by simp [stepTour]; omega)
    (by show ((k + 1 : ℕ) : Int) < (steps.length : Int); exact_mod_cast hk) rfl
    (stepTour_spot steps opts _)

/-- A `next()` call past the last index on the started tour runs `endTour`:
the state becomes Finished, the popup is removed, and the call returns
normally. -/
theorem stepTour_next_end (steps : List Step) (opts : OptionsArg) (k : ℕ)
    (hk : ¬(k + 1 < steps.length)) :
    (stepTour steps opts (k : Int)).next
      = (finishedTour steps opts ((k + 1 : ℕ) : Int), JsOutcome.ok) := by
  unfold TourSM.next TourSM.endTour
  rw [if_neg (by show ¬((k : Int) + 1 < (steps.length : Int)); omega),
    if_pos (by rfl), if_neg (by simpa using stepTour_spot steps opts (k : Int))]
  have e1 : ({ stepTour steps opts (k : Int) with
      step := (stepTour steps opts (k : Int)).step + 1
      currentState := 2
      popupExists := false }) = finishedTour steps opts ((k + 1 : ℕ) : Int) := by
    show finishedTour steps opts ((k : Int) + 1) = _
    norm_num
  rw [e1]

/-- As long as the index stays in range, each `next()` call of the started
tour only increments the index. -/
theorem runNext_stepTour (steps : List Step) (opts : OptionsArg) :
    ∀ k, k < steps.length →
      (stepTour steps opts 0).runNext k = stepTour steps opts (k : Int) := by
  intro k
  induction k with
  | zero =>
    intro _
    show stepTour steps opts 0 = stepTour steps opts ((0 : ℕ) : Int)
    norm_num
  | succ k ih =>
    intro hk1
    show (((stepTour steps opts 0).runNext k).next).1 = _
    rw [ih (Nat.lt_of_succ_lt hk1), stepTour_next_ok steps opts k hk1]

/-- C1 as a predicate on the step list and options of a freshly configured
tour: `start()` renders step `0` in the Started state, the first `N - 1`
`next()` calls return normally, keep the state Started and move the index to
`k`, and the `N`-th call returns normally having moved the state to
Finished — so the Started-to-Finished transition happens exactly once, on
the `N`-th call. -/
def tourRunSpec (steps : List Step) (opts : OptionsArg) : Prop :=
  ((mkTour steps opts).start).2 = JsOutcome.ok ∧
  ((mkTour steps opts).start).1.currentState = 1 ∧
  ((mkTour steps opts).start).1.step = 0 ∧
  (∀ k, k < steps.length →
    ((((mkTour steps opts).start).1.runNext k).currentState = 1 ∧
     (((mkTour steps opts).start).1.runNext k).step = (k : Int))) ∧
  (∀ k, k + 1 < steps.length →
    ((((mkTour steps opts).start).1.runNext k).next).2 = JsOutcome.ok) ∧
  ((((mkTour steps opts).start).1.runNext (steps.length - 1)).next).2 = JsOutcome.ok ∧
  (((mkTour steps opts).start).1.runNext steps.length).currentState = 2

/-- C1: starting a freshly configured tour with `N ≥ 1` steps and calling
`next()` exactly `N` times renders steps `0 … N-1` in the Started state and
transitions to Finished exactly once, on the `N`-th call, which also returns
normally. -/
theorem next_called_n_times_finishes (steps : List Step) (opts : OptionsArg)
    (h : steps ≠ []) : tourRunSpec steps opts := by
  have hN : 0 < steps.length := List.length_pos.mpr h
  have hstart := start_mkTour steps opts h
  have hR := runNext_stepTour steps opts
  refine ⟨by rw [hstart], by rw [hstart]; rfl, by rw [hstart]; rfl, ?_, ?_, ?_, ?_⟩
  · intro k hk
    rw [hstart]
    show (((stepTour steps opts 0).runNext k).currentState = 1 ∧
      ((stepTour steps opts 0).runNext k).step = (k : Int))
    rw [hR k hk]
    exact ⟨rfl, rfl⟩
  · intro k hk1
    rw [hstart]
    show (((stepTour steps opts 0).runNext k).next).2 = JsOutcome.ok
    rw [hR k (by omega), stepTour_next_ok steps opts k hk1]
  · rw [hstart]
    show (((stepTour steps opts 0).runNext (steps.length - 1)).next).2 = JsOutcome.ok
    rw [hR (steps.length - 1) (by omega),
      stepTour_next_end steps opts (steps.length - 1) (by omega)]
  · rw [hstart]
    show ((stepTour steps opts 0).runNext steps.length).currentState = 2
    rw [show steps.length = steps.length - 1 + 1 from by omega]
    show ((((stepTour steps opts 0).runNext (steps.length - 1)).next)).1.currentState = 2
    rw [hR (steps.length - 1) (by omega),
      stepTour_next_end steps opts (steps.length - 1) (by omega)]
    rfl

/-- Witness for C1 on a concrete two-step tour with default options. -/
theorem next_called_n_times_finishes_witness :
    ([({} : Step), ({} : Step)] ≠ ([] : List Step)) ∧ tourRunSpec [{}, {}] {} :=
  ⟨by decide, next_called_n_times_finishes [{}, {}] {} (by decide)⟩

/-- C9, counterexample: after `blackout()` on a freshly created spotlight in
a 100×100 viewport, panel 0 — whose top was set to `0` — covers the viewport
point `(50, 50)`, so the panels do NOT all sit outside the visible area. -/
theorem blackout_counterexample :
    spotBlackout (spotlightNew 10 100 100)
      = some { padding := 10, panels :=
          [⟨0, 0, 100, 100⟩, ⟨100, 0, 100, 100⟩,
           ⟨0, 100, 100, 100⟩, ⟨-100, 0, 100, 100⟩] } ∧
    inViewport 100 100 50 50 ∧
    covers ⟨0, 0, 100, 100⟩ 50 50 := by
  refine ⟨rfl, ?_, ?_⟩ <;> norm_num [inViewport, covers]

/-- C9, amended: `blackout()` pushes panels 1 (right), 2 (bottom) and
3 (left) fully outside the viewport, but it pins panel 0's top to `0`, so
panel 0 covers every viewport point: consistent with its own doc comment,
`blackout()` FILLS the viewport with the overlay instead of masking nothing.
The hypotheses record the panel dimensions that `create()` (full-viewport
surfaces) establishes and `move()` preserves. -/
theorem blackout_fills_viewport (vw vh : ℚ) (s : SpotState) (p0 p1 p2 p3 : Rect)
    (hp : s.panels = [p0, p1, p2, p3])
    (h0l : p0.left = 0) (h0w : p0.width = vw) (h0h : p0.height = vh)
    (h1w : p1.width = vw) (h2l : p2.left = 0) (h2w : p2.width = vw)
    (h2h : p2.height = vh) (h3w : p3.width = vw) :
    spotBlackout s = some { padding := s.padding, panels :=
        [⟨0, 0, vw, vh⟩, ⟨vw, p1.top, vw, p1.height⟩,
         ⟨0, vh, vw, vh⟩, ⟨-vw, p3.top, vw, p3.height⟩] } ∧
    ∀ x y, inViewport vw vh x y →
      covers ⟨0, 0, vw, vh⟩ x y ∧
      ¬ covers ⟨vw, p1.top, vw, p1.height⟩ x y ∧
      ¬ covers ⟨0, vh, vw, vh⟩ x y ∧
      ¬ covers ⟨-vw, p3.top, vw, p3.height⟩ x y := by
  obtain ⟨l0, t0, w0, e0⟩ := p0
  obtain ⟨l1, t1, w1, e1⟩ := p1
  obtain ⟨l2, t2, w2, e2⟩ := p2
  obtain ⟨l3, t3, w3, e3⟩ := p3
  simp only at h0l h0w h0h h1w h2l h2w h2h h3w
  subst h0l h0w h0h h1w h2l h2w h2h h3w
  constructor
  · unfold spotBlackout
    rw [hp]
  · intro x y hxy
    simp only [inViewport] at hxy
    simp only [covers]
    refine ⟨⟨hxy.1, by linarith [hxy.2.1], hxy.2.2.1, by linarith [hxy.2.2.2]⟩, ?_, ?_, ?_⟩
    · rintro ⟨ha, -, -, -⟩
      linarith [hxy.2.1]
    · rintro ⟨-, -, hc, -⟩
      linarith [hxy.2.2.2]
    · rintro ⟨-, hb, -, -⟩
      linarith [hxy.1]

/-- Witness for the amended C9 on a freshly created spotlight in a 100×100
viewport. -/
theorem blackout_fills_viewport_witness :
    ((spotlightNew 10 100 100).panels
        = [⟨0, 0, 100, 100⟩, ⟨0, 0, 100, 100⟩, ⟨0, 0, 100, 100⟩, ⟨0, 0, 100, 100⟩]) ∧
    (spotBlackout (spotlightNew 10 100 100)
        = some { padding := (spotlightNew 10 100 100).padding, panels :=
            [⟨0, 0, 100, 100⟩, ⟨100, 0, 100, 100⟩,
             ⟨0, 100, 100, 100⟩, ⟨-100, 0, 100, 100⟩] } ∧
     ∀ x y, inViewport 100 100 x y →
       covers ⟨0, 0, 100, 100⟩ x y ∧
       ¬ covers ⟨100, 0, 100, 100⟩ x y ∧
       ¬ covers ⟨0, 100, 100, 100⟩ x y ∧
       ¬ covers ⟨-100, 0, 100, 100⟩ x y) :=
  ⟨rfl, blackout_fills_viewport 100 100 (spotlightNew 10 100 100)
    ⟨0, 0, 100, 100⟩ ⟨0, 0, 100, 100⟩ ⟨0, 0, 100, 100⟩ ⟨0, 0, 100, 100⟩
    rfl rfl rfl rfl rfl rfl rfl rfl rfl⟩

/-- The geometry `move` gives the top panel of a freshly created spotlight:
its bottom edge lands on `r.top - pad`. -/
def topPanel (vw vh pad : ℚ) (r : Rect) : Rect :=
  ⟨0, r.top - pad - vh, vw, vh⟩

/-- The geometry `move` gives the right panel: left edge `r.right + pad`,
carrying the padded band height. -/
def rightPanel (vw pad : ℚ) (r : Rect) : Rect :=
  ⟨r.right + pad, r.top - pad, vw, r.height + pad * 2⟩

/-- The geometry `move` gives the bottom panel: top edge `r.bottom + pad`. -/
def bottomPanel (vw vh pad : ℚ) (r : Rect) : Rect :=
  ⟨0, r.bottom + pad, vw, vh⟩

/-- The geometry `move` gives the left panel: right edge `r.left - pad`,
carrying the padded band height. -/
def leftPanel (vw pad : ℚ) (r : Rect) : Rect :=
  ⟨r.left - pad - vw, r.top - pad, vw, r.height + pad * 2⟩

/-- The four panel regions visible in the viewport are pairwise disjoint. -/
def panelsDisjoint (vw vh pad : ℚ) (r : Rect) : Prop :=
  ∀ x y, inViewport vw vh x y →
    ¬(covers (topPanel vw vh pad r) x y ∧ covers (rightPanel vw pad r) x y) ∧
    ¬(covers (topPanel vw vh pad r) x y ∧ covers (bottomPanel vw vh pad r) x y) ∧
    ¬(covers (topPanel vw vh pad r) x y ∧ covers (leftPanel vw pad r) x y) ∧
    ¬(covers (rightPanel vw pad r) x y ∧ covers (bottomPanel vw vh pad r) x y) ∧
    ¬(covers (rightPanel vw pad r) x y ∧ covers (leftPanel vw pad r) x y) ∧
    ¬(covers (bottomPanel vw vh pad r) x y ∧ covers (leftPanel vw pad r) x y)

/-- Inside the viewport, the union of the four panel regions is exactly the
complement of the padding-expanded target rectangle. -/
def panelsUnion (vw vh pad : ℚ) (r : Rect) : Prop :=
  ∀ x y, inViewport vw vh x y →
    ((covers (topPanel vw vh pad r) x y ∨ covers (rightPanel vw pad r) x y ∨
      covers (bottomPanel vw vh pad r) x y ∨ covers (leftPanel vw pad r) x y)
      ↔ ¬ inPadded r pad x y)

/-- C5 as a predicate: `move` on a freshly created spotlight produces exactly
the four panels above; their edges sit where the claim says (top panel
bottom edge `r.top - pad`, bottom panel top edge `r.bottom + pad`, right
panel at `r.right + pad` with the `r.height + 2·pad` band, left panel ending
at `r.left - pad` with the same band, top/bottom panels spanning the full
width), and within the viewport the panel regions are pairwise disjoint with
union the viewport minus the padded rectangle. -/
def spotlightSpec (vw vh pad : ℚ) (r : Rect) : Prop :=
  spotMove (spotlightNew pad vw vh) r
    = some { padding := pad,
             panels := [topPanel vw vh pad r, rightPanel vw pad r,
                        bottomPanel vw vh pad r, leftPanel vw pad r] } ∧
  (topPanel vw vh pad r).top + (topPanel vw vh pad r).height = r.top - pad ∧
  (topPanel vw vh pad r).left = 0 ∧
  (topPanel vw vh pad r).width = vw ∧
  (bottomPanel vw vh pad r).top = r.bottom + pad ∧
  (bottomPanel vw vh pad r).left = 0 ∧
  (bottomPanel vw vh pad r).width = vw ∧
  (rightPanel vw pad r).left = r.right + pad ∧
  (rightPanel vw pad r).top = r.top - pad ∧
  (rightPanel vw pad r).height = r.height + 2 * pad ∧
  (leftPanel vw pad r).left + (leftPanel vw pad r).width = r.left - pad ∧
  (leftPanel vw pad r).top = r.top - pad ∧
  (leftPanel vw pad r).height = r.height + 2 * pad ∧
  panelsDisjoint vw vh pad r ∧
  panelsUnion vw vh pad r

/-- C5, amended: the claimed panel geometry, disjointness and exact-union
invariant hold for every padding `p ≥ 0` and target rectangle of
non-negative dimensions whose `p`-expanded rectangle lies within the
viewport (the regime produced by `scrollIntoView`); for targets outside the
viewport the viewport-sized panels leave uncovered viewport regions
(see the counterexample). -/
theorem spotlight_panels_geometry (vw vh pad : ℚ) (r : Rect)
    (hpad : 0 ≤ pad) (hw : 0 ≤ r.width) (hh : 0 ≤ r.height)
    (hl : 0 ≤ r.left - pad) (hr : r.right + pad ≤ vw)
    (ht : 0 ≤ r.top - pad) (hb : r.bottom + pad ≤ vh) :
    spotlightSpec vw vh pad r := by
  simp only [Rect.right, Rect.bottom] at hr hb
  refine ⟨rfl, by simp only [topPanel]; ring, rfl, rfl, rfl, rfl, rfl, rfl, rfl,
    by simp only [rightPanel]; ring, by simp only [leftPanel]; ring, rfl,
    by simp only [leftPanel]; ring, ?_, ?_⟩
  · intro x y hxy
    simp only [inViewport] at hxy
    simp only [covers, topPanel, rightPanel, bottomPanel, leftPanel, Rect.right, Rect.bottom]
    refine ⟨?_, ?_, ?_, ?_, ?_, ?_⟩
    · rintro ⟨⟨-, -, -, a4⟩, ⟨-, -, b3, -⟩⟩
      linarith
    · rintro ⟨⟨-, -, -, a4⟩, ⟨-, -, b3, -⟩⟩
      linarith
    · rintro ⟨⟨-, -, -, a4⟩, ⟨-, -, b3, -⟩⟩
      linarith
    · rintro ⟨⟨-, -, -, a4⟩, ⟨-, -, b3, -⟩⟩
      linarith
    · rintro ⟨⟨a1, -, -, -⟩, ⟨-, b2, -, -⟩⟩
      linarith
    · rintro ⟨⟨-, -, a3, -⟩, ⟨-, -, -, b4⟩⟩
      linarith
  · intro x y hxy
    simp only [inViewport] at hxy
    obtain ⟨hx0, hxw, hy0, hyh⟩ := hxy
    simp only [covers, inPadded, topPanel, rightPanel, bottomPanel, leftPanel,
      Rect.right, Rect.bottom]
    constructor
    · rintro (⟨-, -, -, c4⟩ | ⟨c1, -, -, -⟩ | ⟨-, -, c3, -⟩ | ⟨-, c2, -, -⟩) ⟨d1, d2, d3, d4⟩ <;>
        linarith
    · intro hnp
      rcases lt_or_le y (r.top - pad) with hy1 | hy1
      · exact Or.inl ⟨hx0, by linarith, by linarith, by linarith⟩
      · rcases le_or_lt (r.top + r.height + pad) y with hy2 | hy2
        · exact Or.inr (Or.inr (Or.inl ⟨hx0, by linarith, hy2, by linarith⟩))
        · rcases lt_or_le x (r.left - pad) with hx1 | hx1
          · exact Or.inr (Or.inr (Or.inr ⟨by linarith, by linarith, hy1, by linarith⟩))
          · rcases le_or_lt (r.left + r.width + pad) x with hx2 | hx2
            · exact Or.inr (Or.inl ⟨hx2, by linarith, hy1, by linarith⟩)
            · exact absurd ⟨hx1, hx2, hy1, hy2⟩ hnp

/-- C5, counterexample to the unconditional claim: with a 100×100 viewport,
padding `0` and a target rectangle at `left = 150` (outside the viewport),
the moved panels leave the viewport point `(20, 15)` uncovered even though
it lies outside the padded rectangle: the union property fails for targets
not contained in the viewport. -/
theorem spotlight_union_counterexample :
    spotMove (spotlightNew 0 100 100) ⟨150, 10, 10, 10⟩
      = some { padding := 0, panels :=
          [⟨0, -90, 100, 100⟩, ⟨160, 10, 100, 10⟩,
           ⟨0, 20, 100, 100⟩, ⟨50, 10, 100, 10⟩] } ∧
    inViewport 100 100 20 15 ∧
    ¬ inPadded ⟨150, 10, 10, 10⟩ 0 20 15 ∧
    ¬ covers ⟨0, -90, 100, 100⟩ 20 15 ∧
    ¬ covers ⟨160, 10, 100, 10⟩ 20 15 ∧
    ¬ covers ⟨0, 20, 100, 100⟩ 20 15 ∧
    ¬ covers ⟨50, 10, 100, 10⟩ 20 15 := by
  refine ⟨by norm_num [spotMove, spotlightNew, createPanels, List.replicate,
    Rect.right, Rect.bottom], ?_, ?_, ?_, ?_, ?_, ?_⟩ <;>
    norm_num [inViewport, inPadded, covers, Rect.right, Rect.bottom]

/-- Witness for the amended C5 at a concrete in-viewport target. -/
theorem spotlight_panels_geometry_witness :
    ((0 : ℚ) ≤ 10 ∧ (0 : ℚ) ≤ (⟨40, 40, 20, 20⟩ : Rect).width ∧
     (0 : ℚ) ≤ (⟨40, 40, 20, 20⟩ : Rect).height ∧
     (0 : ℚ) ≤ (⟨40, 40, 20, 20⟩ : Rect).left - 10 ∧
     (⟨40, 40, 20, 20⟩ : Rect).right + 10 ≤ 100 ∧
     (0 : ℚ) ≤ (⟨40, 40, 20, 20⟩ : Rect).top - 10 ∧
     (⟨40, 40, 20, 20⟩ : Rect).bottom + 10 ≤ 100) ∧
    spotlightSpec 100 100 10 ⟨40, 40, 20, 20⟩ :=
  ⟨⟨by norm_num, by norm_num, by norm_num, by norm_num,
    by norm_num [Rect.right], by norm_num, by norm_num [Rect.bottom]⟩,
   spotlight_panels_geometry 100 100 10 ⟨40, 40, 20, 20⟩ (by norm_num) (by norm_num)
     (by norm_num) (by norm_num) (by norm_num [Rect.right]) (by norm_num)
     (by norm_num [Rect.bottom])⟩

/-- C6: the target-relative popup placement with offset `10`.  Wide targets
(`docW - r.width ≤ docW / 2`) get the popup below when `r.bottom` is in the
upper half of the viewport and above otherwise, horizontally center-aligned;
other targets get it to the right when `r.right < docW / 2` and to the left
otherwise, vertically center-aligned, falling back to the below placement
with a re-scroll when the chosen side leaves no room for the popup (right:
`docW - popW < r.right`; left: `popW > r.left`); returned coordinates pass
through `Math.abs` (the left `x` having additionally been clamped at `0`,
which keeps the popup left of the target and non-negative). -/
theorem popup_position_branches (docW innerH popW popH : ℚ) (r : Rect) :
    (docW - r.width ≤ docW / 2 → r.bottom < innerH / 2 →
      getPopupPos docW r popW popH innerH
        = ((|r.left + r.width / 2 - popW / 2|, |r.bottom + 10|), false)) ∧
    (docW - r.width ≤ docW / 2 → ¬(r.bottom < innerH / 2) →
      getPopupPos docW r popW popH innerH
        = ((|r.left + r.width / 2 - popW / 2|, |r.top - 10 - popH|), false)) ∧
    (¬(docW - r.width ≤ docW / 2) → r.right < docW / 2 → docW - popW < r.right →
      getPopupPos docW r popW popH innerH
        = ((|r.left + r.width / 2 - popW / 2|, |r.bottom + 10|), true)) ∧
    (¬(docW - r.width ≤ docW / 2) → r.right < docW / 2 → ¬(docW - popW < r.right) →
      getPopupPos docW r popW popH innerH
        = ((|r.right + 10|, |r.top + r.height / 2 - popH / 2|), false)) ∧
    (¬(docW - r.width ≤ docW / 2) → ¬(r.right < docW / 2) → popW > r.left →
      getPopupPos docW r popW popH innerH
        = ((|r.left + r.width / 2 - popW / 2|, |r.bottom + 10|), true)) ∧
    (¬(docW - r.width ≤ docW / 2) → ¬(r.right < docW / 2) → ¬(popW > r.left) →
      ((getPopupPos docW r popW popH innerH).2 = false ∧
       (getPopupPos docW r popW popH innerH).1.2 = |r.top + r.height / 2 - popH / 2| ∧
       0 ≤ (getPopupPos docW r popW popH innerH).1.1 ∧
       (getPopupPos docW r popW popH innerH).1.1 + popW ≤ r.left)) := by
  refine ⟨?_, ?_, ?_, ?_, ?_, ?_⟩
  · intro h1 h2
    simp only [getPopupPos]
    rw [if_pos h1, if_pos h2]
  · intro h1 h2
    simp only [getPopupPos]
    rw [if_pos h1, if_neg h2]
  · intro h1 h2 h3
    simp only [getPopupPos]
    rw [if_neg h1, if_pos h2, if_pos h3]
  · intro h1 h2 h3
    simp only [getPopupPos]
    rw [if_neg h1, if_pos h2, if_neg h3]
  · intro h1 h2 h3
    simp only [getPopupPos]
    rw [if_neg h1, if_neg h2, if_pos h3]
  · intro h1 h2 h3
    simp only [getPopupPos]
    rw [if_neg h1, if_neg h2, if_neg h3]
    split_ifs with hc
    · refine ⟨rfl, rfl, by simp, ?_⟩
      show |(0 : ℚ)| + popW ≤ r.left
      rw [abs_zero]
      linarith [not_lt.mp h3]
    · refine ⟨rfl, rfl, abs_nonneg _, ?_⟩
      show |r.left - 10 - popW| + popW ≤ r.left
      rw [abs_of_nonneg (le_of_not_lt hc)]
      linarith

/-- Witness for C6: one concrete instance per branch (below, above,
right-with-fallback, right, left-with-fallback, left). -/
theorem popup_position_branches_witness :
    getPopupPos 100 ⟨10, 10, 80, 10⟩ 30 20 100 = ((35, 30), false) ∧
    getPopupPos 100 ⟨10, 60, 80, 10⟩ 30 20 100 = ((35, 30), false) ∧
    getPopupPos 100 ⟨10, 40, 10, 10⟩ 90 20 100 = ((30, 60), true) ∧
    getPopupPos 100 ⟨10, 40, 10, 10⟩ 30 20 100 = ((30, 35), false) ∧
    getPopupPos 100 ⟨60, 40, 10, 10⟩ 70 20 100 = ((30, 60), true) ∧
    ((getPopupPos 100 ⟨60, 40, 10, 10⟩ 30 20 100).2 = false ∧
     (getPopupPos 100 ⟨60, 40, 10, 10⟩ 30 20 100).1.2 = 35 ∧
     0 ≤ (getPopupPos 100 ⟨60, 40, 10, 10⟩ 30 20 100).1.1 ∧
     (getPopupPos 100 ⟨60, 40, 10, 10⟩ 30 20 100).1.1 + 30 ≤ 60) := by
  refine ⟨?_, ?_, ?_, ?_, ?_, ?_⟩
  · rw [(popup_position_branches 100 100 30 20 ⟨10, 10, 80, 10⟩).1
      (by norm_num) (by norm_num [Rect.bottom])]
    norm_num [Rect.bottom]
  · rw [(popup_position_branches 100 100 30 20 ⟨10, 60, 80, 10⟩).2.1
      (by norm_num) (by norm_num [Rect.bottom])]
    norm_num
  · rw [(popup_position_branches 100 100 90 20 ⟨10, 40, 10, 10⟩).2.2.1
      (by norm_num) (by norm_num [Rect.right]) (by norm_num [Rect.right])]
    norm_num [Rect.bottom]
  · rw [(popup_position_branches 100 100 30 20 ⟨10, 40, 10, 10⟩).2.2.2.1
      (by norm_num) (by norm_num [Rect.right]) (by norm_num [Rect.right])]
    norm_num [Rect.right]
  · rw [(popup_position_branches 100 100 70 20 ⟨60, 40, 10, 10⟩).2.2.2.2.1
      (by norm_num) (by norm_num [Rect.right]) (by norm_num)]
    norm_num [Rect.bottom]
  · obtain ⟨w1, w2, w3, w4⟩ := (popup_position_branches 100 100 30 20 ⟨60, 40, 10, 10⟩).2.2.2.2.2
      (by norm_num) (by norm_num [Rect.right]) (by norm_num)
    refine ⟨w1, ?_, w3, w4⟩
    rw [w2]
    norm_num
